import Mathlib

/-!
Verification development for the nerve-search-adapter repository.

The adapter is the single persistent client of a central dispatch service.
It pulls length-delimited frames from a duplex stream, dispatches each frame
by message type (search queries to a backend search engine, cancellations to
a registry of cancelled request ids), and writes reply frames back.

Shallow embedding conventions:
* Bytes are `Nat` values (< 256 where relevant); payloads are `List Nat`.
* `RequestState` (src/state.rs) holds its `HashSet<RequestId>` as a
  `Finset Nat`; `is_cancelled` takes `&mut self` in the source, so it is
  modelled as returning the (unchanged, since `HashSet::contains` does not
  mutate) state alongside the boolean.
* `handle_search` (src/handler.rs) is instrumented with an execution trace:
  the list of request ids passed to `is_cancelled`, in call order, and a flag
  recording whether the backend search call was invoked.  The source performs
  exactly one `is_cancelled` call, which the trace makes visible.
* The external search engine (`crawler::SearchEngine::search`) and the JSON
  serializer (`serde_json::to_vec`) are oracles bundled in `Backend`; the
  result type of a search is a type parameter `R`.  All non-query arguments
  of `engine.search` are fixed v0.1 constants in the source, so the oracle is
  a function of the query bytes alone.
* The connection loop (`client::run`, src/client.rs) is modelled over a
  finite script of frame-reader outcomes; exhausting the script without a
  reader error corresponds to a session still blocked on its next read, so
  the loop result is an `Option`: `none` means the loop has not returned.
-/

/-- Header of a protocol frame, mirroring `nerve_protocol::frame::FrameHeader`
(fields visible in the repository's tests): magic, version, message-type byte,
flags byte, request id, payload length. -/
structure FrameHeader where
  magic : Nat
  version : Nat
  msg_type : Nat
  flags : Nat
  request_id : Nat
  payload_length : Nat
deriving DecidableEq, Repr

/-- A decoded frame, mirroring `nerve_protocol::frame::OwnedFrame`:
a header plus opaque payload bytes. -/
structure OwnedFrame where
  header : FrameHeader
  payload : List Nat
deriving DecidableEq, Repr

/-- Modelled from the spec: the message types consumed or produced by the
adapter (`SearchQuery`, `Cancel`, `SearchResult`); `nerve_protocol` is an
external collaborator whose source is not part of this repository.  The
concrete byte values are representative; the adapter only distinguishes
message types through `MessageType.tryFrom`. -/
inductive MessageType where
  | SearchQuery
  | SearchResult
  | Cancel
deriving DecidableEq, Repr

/-- Modelled from the spec: `MessageType::try_from(u8)` from the external
protocol library; bytes outside the known set decode to `none` (the `Err`
case of the source's `TryFrom`). -/
def MessageType.tryFrom (b : Nat) : Option MessageType :=
  if b = 1 then some MessageType.SearchQuery
  else if b = 2 then some MessageType.SearchResult
  else if b = 3 then some MessageType.Cancel
  else none

/-- Modelled from the spec: the byte carried in a frame header for each
message type, inverse of `MessageType.tryFrom` on the known set. -/
def MessageType.toByte : MessageType → Nat
  | MessageType.SearchQuery => 1
  | MessageType.SearchResult => 2
  | MessageType.Cancel => 3

/-- Modelled from the spec: the FINAL frame flag (`FrameFlags::FINAL`), a
one-bit flag in the header's flags byte. -/
def FrameFlags.FINAL : Nat := 1

/-- Modelled from the spec: the protocol magic constant
(`nerve_protocol::constants::MAGIC`); its concrete value is external. -/
def MAGIC : Nat := 78

/-- Modelled from the spec: the protocol version constant
(`nerve_protocol::constants::VERSION`). -/
def VERSION : Nat := 1

/-- Cancellation registry, mirroring `RequestState` in src/state.rs:
a set of cancelled request ids (`HashSet<RequestId>`). -/
structure RequestState where
  cancelled : Finset Nat
deriving DecidableEq

/-- Mirrors `RequestState::new`: the empty registry. -/
def RequestState.new : RequestState := ⟨∅⟩

/-- Mirrors `RequestState::cancel`: insert the id into the cancelled set. -/
def RequestState.cancel (s : RequestState) (id : Nat) : RequestState :=
  ⟨insert id s.cancelled⟩

/-- Mirrors `RequestState::is_cancelled`: membership test.  The source takes
`&mut self`, so the model returns the state as well; `HashSet::contains`
performs no mutation, which the definition reflects. -/
def RequestState.is_cancelled (s : RequestState) (id : Nat) : Bool × RequestState :=
  (decide (id ∈ s.cancelled), s)

/-- Whether a byte is a UTF-8 continuation byte (0x80..=0xBF). -/
def isCont (c : Nat) : Bool := 128 ≤ c && c ≤ 191

/-- UTF-8 validity of a byte sequence, per the UTF-8 specification that
`std::str::from_utf8` implements: ASCII, 2-byte sequences C2..DF, 3-byte
sequences E0..EF excluding overlong forms and surrogates, 4-byte sequences
F0..F4 up to U+10FFFF, each followed by the right number of continuation
bytes. -/
def validUtf8 : List Nat → Bool
  | [] => true
  | b :: rest =>
    if b < 128 then validUtf8 rest
    else if b < 194 then false
    else if b ≤ 223 then
      match rest with
      | c1 :: rest2 => isCont c1 && validUtf8 rest2
      | [] => false
    else if b ≤ 239 then
      match rest with
      | c1 :: c2 :: rest3 =>
        (if b = 224 then 160 ≤ c1 && c1 ≤ 191
         else if b = 237 then 128 ≤ c1 && c1 ≤ 159
         else isCont c1) && (isCont c2 && validUtf8 rest3)
      | [_] => false
      | [] => false
    else if b ≤ 244 then
      match rest with
      | c1 :: c2 :: c3 :: rest4 =>
        (if b = 240 then 144 ≤ c1 && c1 ≤ 191
         else if b = 244 then 128 ≤ c1 && c1 ≤ 143
         else isCont c1) && (isCont c2 && (isCont c3 && validUtf8 rest4))
      | [_, _] => false
      | [_] => false
      | [] => false
    else false

/-- Mirrors `std::str::from_utf8(bytes).ok()`: a Rust `&str` is exactly a
UTF-8-validated byte slice, so the successful result carries the same
bytes. -/
def from_utf8 (bytes : List Nat) : Option (List Nat) :=
  if validUtf8 bytes then some bytes else none

/-- The external collaborators of `handle_search`, as oracles: the search
engine call (`crawler::SearchEngine::search`, a function of the query bytes
alone since every other argument is a fixed v0.1 constant in the source) and
the JSON serializer (`serde_json::to_vec`).  `R` is the engine's result
type (`SearchResults`), opaque to the adapter. -/
structure Backend (R : Type) where
  search : List Nat → Except Unit R
  serialize : R → Option (List Nat)

/-- Modelled from the spec: `nerve_protocol::codec::encode(msg_type, flags,
request_id, payload) -> bytes | EncodeError`, an external collaborator.  The
byte layout is out of the spec's scope, so the encoded bytes are represented
by the frame they encode (encoding is length-delimited, hence injective);
encoding fails when the payload does not fit the u32 `payload_length` header
field. -/
def encode (mt : MessageType) (flags : Nat) (request_id : Nat)
    (payload : List Nat) : Except Unit OwnedFrame :=
  if payload.length < 4294967296 then
    Except.ok ⟨⟨MAGIC, VERSION, mt.toByte, flags, request_id, payload.length⟩, payload⟩
  else Except.error ()

/-- Result of one `handle_search` call: the optional reply (the source
returns `Option<Vec<u8>>`; bytes are represented by the frame they encode),
the registry state after the call, the trace of request ids passed to
`is_cancelled` in call order, and whether the backend search was invoked. -/
structure HandleResult where
  reply : Option OwnedFrame
  state : RequestState
  checks : List Nat
  backendCalled : Bool
deriving DecidableEq

/-- Mirrors `handle_search` in src/handler.rs: check cancellation for the
frame's request id (one check, at entry); decode the payload as UTF-8; call
the backend; serialize the results; encode a SearchResult reply with the
FINAL flag and the same request id.  Every failure short-circuits to no
reply (`.ok()?` in the source). -/
def handle_search {R : Type} (frame : OwnedFrame) (state : RequestState)
    (engine : Backend R) : HandleResult :=
  let request_id := frame.header.request_id
  let cs := state.is_cancelled request_id
  if cs.fst then
    ⟨none, cs.snd, [request_id], false⟩
  else
    match from_utf8 frame.payload with
    | none => ⟨none, cs.snd, [request_id], false⟩
    | some query =>
      match engine.search query with
      | Except.error _ => ⟨none, cs.snd, [request_id], true⟩
      | Except.ok result =>
        match engine.serialize result with
        | none => ⟨none, cs.snd, [request_id], true⟩
        | some payload =>
          match encode MessageType.SearchResult FrameFlags.FINAL request_id payload with
          | Except.error _ => ⟨none, cs.snd, [request_id], true⟩
          | Except.ok bytes => ⟨some bytes, cs.snd, [request_id], true⟩

/-- The frame-dispatch match inside the loop of `client::run`
(src/client.rs): SearchQuery frames go to `handle_search` (whose reply, if
any, is written back), Cancel frames insert their header's request id into
the registry, every other decoded message type is ignored. -/
def dispatchFrame {R : Type} (frame : OwnedFrame) (state : RequestState)
    (engine : Backend R) : Option OwnedFrame × RequestState :=
  match MessageType.tryFrom frame.header.msg_type with
  | some MessageType.SearchQuery =>
    let hr := handle_search frame state engine
    (hr.reply, hr.state)
  | some MessageType.Cancel =>
    (none, state.cancel frame.header.request_id)
  | _ => (none, state)

/-- Dispatch one batch of decoded frames in arrival order (the inner `for`
loop of `client::run`), collecting the optional reply of each frame. -/
def processFrames {R : Type} (frames : List OwnedFrame) (state : RequestState)
    (engine : Backend R) : List (Option OwnedFrame) × RequestState :=
  match frames with
  | [] => ([], state)
  | f :: fs =>
    let or := dispatchFrame f state engine
    let tl := processFrames fs or.snd engine
    (or.fst :: tl.fst, tl.snd)

/-- One outcome of `FrameReader::read_from`: a batch of decoded frames, or a
transport/decode error (error values are opaque codes). -/
def ReadResult : Type := Except Nat (List OwnedFrame)

/-- Write each reply of a batch to the stream in order (the `write_all(..)?`
in the loop body): returns the write error that aborted the batch, if any,
together with the frames successfully written and the final registry state.
`write` is the stream-write oracle. -/
def writeBatch {R : Type} (write : OwnedFrame → Except Nat Unit)
    (frames : List OwnedFrame) (state : RequestState) (engine : Backend R) :
    Except Nat Unit × List OwnedFrame × RequestState :=
  match frames with
  | [] => (Except.ok (), [], state)
  | f :: fs =>
    let or := dispatchFrame f state engine
    match or.fst with
    | none =>
      writeBatch write fs or.snd engine
    | some reply =>
      match write reply with
      | Except.error e => (Except.error e, [], or.snd)
      | Except.ok _ =>
        let rest := writeBatch write fs or.snd engine
        (rest.fst, reply :: rest.snd.fst, rest.snd.snd)

/-- The connection loop of `client::run` (src/client.rs), driven by a finite
script of reader outcomes.  A reader error breaks out of the loop, after
which the function returns success (`warn!` then `break`, then `Ok(())`); a
write error propagates (`write_all(&reply)?`).  Result: `none` when the
script is exhausted with the loop still waiting on its next read, otherwise
`some` of the loop's return value; paired with the list of frames written. -/
def run {R : Type} (write : OwnedFrame → Except Nat Unit)
    (script : List ReadResult) (state : RequestState) (engine : Backend R) :
    Option (Except Nat Unit) × List OwnedFrame :=
  match script with
  | [] => (none, [])
  | Except.error _ :: _ => (some (Except.ok ()), [])
  | Except.ok frames :: rest =>
    match writeBatch write frames state engine with
    | (Except.error e, written, _) => (some (Except.error e), written)
    | (Except.ok _, written, state') =>
      let r := run write rest state' engine
      (r.fst, written ++ r.snd)

/-- One session operation touching the cancellation registry: the `cancel`
performed for a Cancel frame, an `is_cancelled` query, or the dispatch of an
arbitrary decoded frame. -/
inductive RegistryOp where
  | cancelOp (id : Nat)
  | queryOp (id : Nat)
  | dispatchOp (f : OwnedFrame)

/-- Effect of one registry operation on the registry state. -/
def applyOp {R : Type} (e : Backend R) (op : RegistryOp) (s : RequestState) :
    RequestState :=
  match op with
  | RegistryOp.cancelOp id => s.cancel id
  | RegistryOp.queryOp id => (s.is_cancelled id).snd
  | RegistryOp.dispatchOp f => (dispatchFrame f s e).snd

/-- Effect of a sequence of registry operations, applied in order. -/
def applyOps {R : Type} (e : Backend R) (ops : List RegistryOp)
    (s : RequestState) : RequestState :=
  match ops with
  | [] => s
  | op :: rest => applyOps e rest (applyOp e op s)

/-! ### Helper lemmas -/

theorem handle_search_state_eq {R : Type} (f : OwnedFrame) (s : RequestState)
    (e : Backend R) : (handle_search f s e).state = s := by
  simp only [handle_search, RequestState.is_cancelled]
  repeat' split <;> try rfl

theorem handle_search_checks_eq {R : Type} (f : OwnedFrame) (s : RequestState)
    (e : Backend R) : (handle_search f s e).checks = [f.header.request_id] := by
  simp only [handle_search, RequestState.is_cancelled]
  repeat' split <;> try rfl

theorem handle_search_cancelled {R : Type} (f : OwnedFrame) (s : RequestState)
    (e : Backend R) (h : f.header.request_id ∈ s.cancelled) :
    handle_search f s e = ⟨none, s, [f.header.request_id], false⟩ := by
  unfold handle_search
  simp [RequestState.is_cancelled, h]

theorem handle_search_reply_id {R : Type} (f : OwnedFrame) (s : RequestState)
    (e : Backend R) (fr : OwnedFrame) (h : (handle_search f s e).reply = some fr) :
    fr.header.request_id = f.header.request_id := by
  unfold handle_search at h
  simp only [RequestState.is_cancelled] at h
  split at h
  · simp at h
  · split at h
    · simp at h
    · split at h
      · simp at h
      · split at h
        · simp at h
        · split at h
          · simp at h
          · rename_i payload henc
            unfold encode at henc
            split at henc
            · simp only [Except.ok.injEq] at henc
              simp at h
              rw [← h, ← henc]
            · exact absurd henc (by simp)

theorem handle_search_success {R : Type} (f : OwnedFrame) (s : RequestState)
    (e : Backend R) (res : R) (sout : List Nat)
    (h1 : f.header.request_id ∉ s.cancelled)
    (h2 : validUtf8 f.payload = true)
    (h3 : e.search f.payload = Except.ok res)
    (h4 : e.serialize res = some sout)
    (h5 : sout.length < 4294967296) :
    handle_search f s e =
      ⟨some ⟨⟨MAGIC, VERSION, MessageType.SearchResult.toByte, FrameFlags.FINAL,
        f.header.request_id, sout.length⟩, sout⟩, s, [f.header.request_id], true⟩ := by
  unfold handle_search
  simp [RequestState.is_cancelled, h1, from_utf8, h2, h3, h4, encode, h5]

theorem dispatchFrame_state_eq {R : Type} (f : OwnedFrame) (s : RequestState)
    (e : Backend R) :
    (dispatchFrame f s e).snd =
      if MessageType.tryFrom f.header.msg_type = some MessageType.Cancel then
        s.cancel f.header.request_id
      else s := by
  unfold dispatchFrame
  rcases h : MessageType.tryFrom f.header.msg_type with _ | mt
  · simp [h]
  · cases mt <;> simp [h, handle_search_state_eq]

theorem dispatchFrame_mono {R : Type} (f : OwnedFrame) (s : RequestState)
    (e : Backend R) : s.cancelled ⊆ (dispatchFrame f s e).snd.cancelled := by
  rw [dispatchFrame_state_eq]
  split
  · exact Finset.subset_insert _ _
  · exact Finset.Subset.refl _

theorem dispatchFrame_cancelled_bound {R : Type} (f : OwnedFrame)
    (s : RequestState) (e : Backend R) :
    (dispatchFrame f s e).snd.cancelled ⊆ insert f.header.request_id s.cancelled := by
  rw [dispatchFrame_state_eq]
  split
  · exact Finset.Subset.refl _
  · exact Finset.subset_insert _ _

theorem dispatchFrame_reply_id {R : Type} (f : OwnedFrame) (s : RequestState)
    (e : Backend R) (fr : OwnedFrame) (h : (dispatchFrame f s e).fst = some fr) :
    fr.header.request_id = f.header.request_id := by
  unfold dispatchFrame at h
  rcases hm : MessageType.tryFrom f.header.msg_type with _ | mt
  · rw [hm] at h; simp at h
  · cases mt <;> rw [hm] at h <;> simp at h
    exact handle_search_reply_id f s e fr h

theorem processFrames_append {R : Type} (xs ys : List OwnedFrame)
    (s : RequestState) (e : Backend R) :
    processFrames (xs ++ ys) s e =
      ((processFrames xs s e).fst ++
        (processFrames ys (processFrames xs s e).snd e).fst,
       (processFrames ys (processFrames xs s e).snd e).snd) := by
  induction xs generalizing s with
  | nil => simp [processFrames]
  | cons x xs ih => simp [processFrames, ih]

theorem processFrames_length {R : Type} (fs : List OwnedFrame)
    (s : RequestState) (e : Backend R) :
    (processFrames fs s e).fst.length = fs.length := by
  induction fs generalizing s with
  | nil => rfl
  | cons f fs ih => simp [processFrames, ih]

theorem processFrames_mono {R : Type} (fs : List OwnedFrame)
    (s : RequestState) (e : Backend R) :
    s.cancelled ⊆ (processFrames fs s e).snd.cancelled := by
  induction fs generalizing s with
  | nil => exact Finset.Subset.refl _
  | cons f fs ih =>
    exact Finset.Subset.trans (dispatchFrame_mono f s e) (ih _)

theorem processFrames_cancelled_bound {R : Type} (fs : List OwnedFrame)
    (s : RequestState) (e : Backend R) :
    (processFrames fs s e).snd.cancelled ⊆
      s.cancelled ∪ (fs.map (fun f => f.header.request_id)).toFinset := by
  induction fs generalizing s with
  | nil => simp [processFrames]
  | cons f fs ih =>
    refine Finset.Subset.trans (ih _) ?_
    intro x hx
    rcases Finset.mem_union.mp hx with hx | hx
    · have := dispatchFrame_cancelled_bound f s e hx
      rcases Finset.mem_insert.mp this with hx | hx
      · subst hx; simp
      · exact Finset.mem_union_left _ hx
    · simp at hx
      simp [hx]

theorem dispatchFrame_cancel_eq {R : Type} (f : OwnedFrame) (s : RequestState)
    (e : Backend R) (h : MessageType.tryFrom f.header.msg_type = some MessageType.Cancel) :
    dispatchFrame f s e = (none, s.cancel f.header.request_id) := by
  unfold dispatchFrame
  rw [h]

theorem dispatchFrame_query_eq {R : Type} (f : OwnedFrame) (s : RequestState)
    (e : Backend R)
    (h : MessageType.tryFrom f.header.msg_type = some MessageType.SearchQuery) :
    dispatchFrame f s e = ((handle_search f s e).reply, (handle_search f s e).state) := by
  unfold dispatchFrame
  rw [h]

theorem applyOp_mono {R : Type} (e : Backend R) (op : RegistryOp)
    (s : RequestState) : s.cancelled ⊆ (applyOp e op s).cancelled := by
  cases op with
  | cancelOp id => exact Finset.subset_insert _ _
  | queryOp id => exact Finset.Subset.refl _
  | dispatchOp f => exact dispatchFrame_mono f s e

theorem applyOps_mono {R : Type} (e : Backend R) (ops : List RegistryOp)
    (s : RequestState) : s.cancelled ⊆ (applyOps e ops s).cancelled := by
  induction ops generalizing s with
  | nil => exact Finset.Subset.refl _
  | cons op rest ih =>
    exact Finset.Subset.trans (applyOp_mono e op s) (ih _)

theorem writeBatch_ok {R : Type} (write : OwnedFrame → Except Nat Unit)
    (hw : ∀ fr, write fr = Except.ok ()) (frames : List OwnedFrame)
    (s : RequestState) (e : Backend R) :
    (writeBatch write frames s e).fst = Except.ok () := by
  induction frames generalizing s with
  | nil => rfl
  | cons f fs ih =>
    simp only [writeBatch]
    rcases hd : (dispatchFrame f s e).fst with _ | reply
    · exact ih _
    · dsimp only
      rw [hw reply]
      dsimp only
      exact ih _

theorem processFrames_filter_ne {R : Type} (e : Backend R)
    (fs : List OwnedFrame) (s : RequestState) (r : Nat)
    (h : ∀ f ∈ fs, f.header.request_id ≠ r) :
    ((processFrames fs s e).fst.filterMap id).filter
      (fun fr => fr.header.request_id == r) = [] := by
  induction fs generalizing s with
  | nil => rfl
  | cons f fs ih =>
    simp only [processFrames]
    rcases hd : (dispatchFrame f s e).fst with _ | fr
    · simp only [List.filterMap_cons, id]
      exact ih _ (fun g hg => h g (List.mem_cons_of_mem f hg))
    · have hid : fr.header.request_id = f.header.request_id :=
        dispatchFrame_reply_id f s e fr hd
      have hne : (fr.header.request_id == r) = false := by
        rw [hid]
        exact beq_false_of_ne (h f (List.mem_cons_self f fs))
      simp only [List.filterMap_cons, id, List.filter_cons, hne]
      exact ih _ (fun g hg => h g (List.mem_cons_of_mem f hg))

/-! ### Claim theorems -/

/-- C5: `cancel` is idempotent — applying `cancel r` twice yields the same
registry state, hence the same result for every subsequent `is_cancelled`
query, as applying it once; and inserting an id that is already present is a
no-op on the state. -/
theorem cancel_idempotent (s : RequestState) (r : Nat) :
    (s.cancel r).cancel r = s.cancel r ∧
    (∀ q, (((s.cancel r).cancel r).is_cancelled q).fst =
      ((s.cancel r).is_cancelled q).fst) ∧
    (r ∈ s.cancelled → s.cancel r = s) := by
  refine ⟨?_, ?_, ?_⟩
  · simp [RequestState.cancel, Finset.insert_idem]
  · intro q
    simp [RequestState.cancel, RequestState.is_cancelled, Finset.insert_idem]
  · intro h
    cases s with
    | mk c =>
      simp only [RequestState.cancel, RequestState.mk.injEq]
      exact Finset.insert_eq_self.mpr h

/-- C5 witness: concrete instance with the already-present hypothesis
discharged at id 5 on the registry holding exactly 5. -/
theorem cancel_idempotent_witness :
    5 ∈ (RequestState.new.cancel 5).cancelled ∧
    (RequestState.new.cancel 5).cancel 5 = RequestState.new.cancel 5 := by
  refine ⟨by decide, ?_⟩
  exact (cancel_idempotent (RequestState.new.cancel 5) 5).2.2 (by decide)

/-- C6: cancellation is monotone over the session — once `is_cancelled r`
holds, it still holds after any subsequent sequence of registry operations
(cancels of arbitrary ids, `is_cancelled` queries, frame dispatches); no
operation removes an entry. -/
theorem cancelled_is_monotone {R : Type} (e : Backend R) (ops : List RegistryOp)
    (s : RequestState) (r : Nat) (h : (s.is_cancelled r).fst = true) :
    ((applyOps e ops s).is_cancelled r).fst = true := by
  have hm : r ∈ s.cancelled := by
    simpa [RequestState.is_cancelled] using h
  simp only [RequestState.is_cancelled, decide_eq_true_eq]
  exact applyOps_mono e ops s hm

/-- C6 witness: id 3 stays cancelled across a cancel of another id, a query,
and a frame dispatch. -/
theorem cancelled_is_monotone_witness :
    ((RequestState.new.cancel 3).is_cancelled 3).fst = true ∧
    ((applyOps (⟨fun _ => Except.ok 0, fun _ => some [91, 93]⟩ : Backend Nat)
        [RegistryOp.cancelOp 7, RegistryOp.queryOp 3,
         RegistryOp.dispatchOp ⟨⟨78, 1, 3, 0, 8, 0⟩, []⟩]
        (RequestState.new.cancel 3)).is_cancelled 3).fst = true := by
  refine ⟨by decide, ?_⟩
  exact cancelled_is_monotone _ _ _ _ (by decide)

/-- C10: dispatching a SearchQuery never modifies the cancellation registry —
for every frame, registry state, and backend, `handle_search` returns the
registry unchanged, and `is_cancelled` (despite the source's `&mut self`)
leaves the state it was given intact. -/
theorem handle_search_registry_unchanged {R : Type} (f : OwnedFrame)
    (s : RequestState) (e : Backend R) :
    (handle_search f s e).state = s ∧ ∀ id, (s.is_cancelled id).snd = s :=
  ⟨handle_search_state_eq f s e, fun _ => rfl⟩

/-- C3: a SearchQuery whose request id is already in the cancellation
registry produces no reply and never invokes the backend search call. -/
theorem cancelled_query_short_circuits {R : Type} (f : OwnedFrame)
    (s : RequestState) (e : Backend R)
    (h : (s.is_cancelled f.header.request_id).fst = true) :
    (handle_search f s e).reply = none ∧
    (handle_search f s e).backendCalled = false := by
  have hm : f.header.request_id ∈ s.cancelled := by
    simpa [RequestState.is_cancelled] using h
  rw [handle_search_cancelled f s e hm]
  exact ⟨rfl, rfl⟩

/-- C3 witness: Cancel(99) already registered, then SearchQuery(99, "rust")
yields no reply and no backend invocation. -/
theorem cancelled_query_short_circuits_witness :
    (((RequestState.new.cancel 99).is_cancelled 99).fst = true) ∧
    ((handle_search ⟨⟨78, 1, 1, 0, 99, 4⟩, [114, 117, 115, 116]⟩
        (RequestState.new.cancel 99)
        (⟨fun _ => Except.ok 0, fun _ => some [91, 93]⟩ : Backend Nat)).reply = none ∧
      (handle_search ⟨⟨78, 1, 1, 0, 99, 4⟩, [114, 117, 115, 116]⟩
        (RequestState.new.cancel 99)
        (⟨fun _ => Except.ok 0, fun _ => some [91, 93]⟩ : Backend Nat)).backendCalled = false) := by
  refine ⟨by decide, ?_⟩
  exact cancelled_query_short_circuits _ _ _ (by decide)

/-- C8: a decoded frame whose message type is neither SearchQuery nor Cancel
(including bytes decoding to no known message type) is dispatched with no
effect: no reply and an unchanged registry. -/
theorem unknown_frame_is_noop {R : Type} (f : OwnedFrame) (s : RequestState)
    (e : Backend R)
    (h1 : MessageType.tryFrom f.header.msg_type ≠ some MessageType.SearchQuery)
    (h2 : MessageType.tryFrom f.header.msg_type ≠ some MessageType.Cancel) :
    dispatchFrame f s e = (none, s) := by
  unfold dispatchFrame
  rcases hm : MessageType.tryFrom f.header.msg_type with _ | mt
  · rfl
  · cases mt
    · exact absurd hm h1
    · rfl
    · exact absurd hm h2

/-- C8 witness: a frame with an unknown message-type byte (200) is a no-op on
a non-trivial registry. -/
theorem unknown_frame_is_noop_witness :
    (MessageType.tryFrom 200 ≠ some MessageType.SearchQuery ∧
      MessageType.tryFrom 200 ≠ some MessageType.Cancel) ∧
    dispatchFrame ⟨⟨78, 1, 200, 0, 7, 3⟩, [1, 2, 3]⟩ (RequestState.new.cancel 3)
        (⟨fun _ => Except.ok 0, fun _ => some [91, 93]⟩ : Backend Nat) =
      (none, RequestState.new.cancel 3) := by
  refine ⟨⟨by decide, by decide⟩, ?_⟩
  exact unknown_frame_is_noop _ _ _ (by decide) (by decide)

/-- C9: dispatching a Cancel frame depends only on the request id in its
header — two Cancel frames with the same header request id but arbitrary
payloads (and arbitrary other header fields) dispatch identically from any
registry state. -/
theorem cancel_dispatch_ignores_payload {R : Type} (f1 f2 : OwnedFrame)
    (s : RequestState) (e : Backend R)
    (h1 : MessageType.tryFrom f1.header.msg_type = some MessageType.Cancel)
    (h2 : MessageType.tryFrom f2.header.msg_type = some MessageType.Cancel)
    (h : f1.header.request_id = f2.header.request_id) :
    dispatchFrame f1 s e = dispatchFrame f2 s e := by
  rw [dispatchFrame_cancel_eq f1 s e h1, dispatchFrame_cancel_eq f2 s e h2, h]

/-- C9 witness: two Cancel frames for id 7, one with an empty payload and one
with payload bytes and different flags, dispatch identically. -/
theorem cancel_dispatch_ignores_payload_witness :
    (MessageType.tryFrom 3 = some MessageType.Cancel ∧ (7 : Nat) = 7) ∧
    dispatchFrame ⟨⟨78, 1, 3, 0, 7, 0⟩, []⟩ RequestState.new
        (⟨fun _ => Except.ok 0, fun _ => some [91, 93]⟩ : Backend Nat) =
      dispatchFrame ⟨⟨78, 1, 3, 1, 7, 3⟩, [9, 9, 9]⟩ RequestState.new
        (⟨fun _ => Except.ok 0, fun _ => some [91, 93]⟩ : Backend Nat) := by
  refine ⟨⟨by decide, rfl⟩, ?_⟩
  exact cancel_dispatch_ignores_payload _ _ _ _ (by decide) (by decide) rfl

/-- C7: every local failure of a SearchQuery is a silent drop — an invalid
UTF-8 payload, a backend search error, a serializer failure, or a reply too
large to encode each yield no reply bytes, no error frame, and no error
value (the handler's result type carries none). -/
theorem search_failures_drop_silently {R : Type} (f : OwnedFrame)
    (s : RequestState) (e : Backend R) :
    (validUtf8 f.payload = false → (handle_search f s e).reply = none) ∧
    (e.search f.payload = Except.error () → (handle_search f s e).reply = none) ∧
    (∀ res, e.search f.payload = Except.ok res → e.serialize res = none →
      (handle_search f s e).reply = none) ∧
    (∀ res sout, e.search f.payload = Except.ok res →
      e.serialize res = some sout → 4294967296 ≤ sout.length →
      (handle_search f s e).reply = none) := by
  by_cases hc : f.header.request_id ∈ s.cancelled
  · rw [handle_search_cancelled f s e hc]
    exact ⟨fun _ => rfl, fun _ => rfl, fun _ _ _ => rfl, fun _ _ _ _ _ => rfl⟩
  · by_cases hv : validUtf8 f.payload
    · refine ⟨?_, ?_, ?_, ?_⟩
      · intro h
        rw [hv] at h
        exact absurd h (by simp)
      · intro h
        simp [handle_search, RequestState.is_cancelled, hc, from_utf8, hv, h]
      · intro res h1 h2
        simp [handle_search, RequestState.is_cancelled, hc, from_utf8, hv, h1, h2]
      · intro res sout h1 h2 h3
        simp [handle_search, RequestState.is_cancelled, hc, from_utf8, hv, h1, h2,
          encode, Nat.not_lt.mpr h3]
    · have hv' : validUtf8 f.payload = false := by
        exact Bool.not_eq_true _ ▸ eq_false_of_ne_true hv
      constructor
      · intro _
        simp [handle_search, RequestState.is_cancelled, hc, from_utf8, hv']
      · refine ⟨?_, ?_, ?_⟩
        · intro _
          simp [handle_search, RequestState.is_cancelled, hc, from_utf8, hv']
        · intro res _ _
          simp [handle_search, RequestState.is_cancelled, hc, from_utf8, hv']
        · intro res sout _ _ _
          simp [handle_search, RequestState.is_cancelled, hc, from_utf8, hv']

/-- C7 witness: the payload [255] is not valid UTF-8 and the corresponding
SearchQuery yields no reply. -/
theorem search_failures_drop_silently_witness :
    validUtf8 [255] = false ∧
    (handle_search ⟨⟨78, 1, 1, 0, 12, 1⟩, [255]⟩ RequestState.new
      (⟨fun _ => Except.ok 0, fun _ => some [91, 93]⟩ : Backend Nat)).reply = none := by
  refine ⟨by decide, ?_⟩
  exact (search_failures_drop_silently ⟨⟨78, 1, 1, 0, 12, 1⟩, [255]⟩ RequestState.new
    (⟨fun _ => Except.ok 0, fun _ => some [91, 93]⟩ : Backend Nat)).1 (by decide)

theorem processFrames_cons {R : Type} (f : OwnedFrame) (fs : List OwnedFrame)
    (s : RequestState) (e : Backend R) :
    processFrames (f :: fs) s e =
      ((dispatchFrame f s e).fst ::
        (processFrames fs (dispatchFrame f s e).snd e).fst,
       (processFrames fs (dispatchFrame f s e).snd e).snd) := rfl

/-- C1 counterexample: on a SearchQuery(42, "rust") against the empty
registry with a succeeding backend, the handler emits a reply while its
trace of cancellation checks is exactly [42] — one check, at entry.  No
second check of the request id happens before the reply is encoded, so no
second check can discard the computed result, contrary to the claim that
`handle_search` re-checks cancellation immediately before encoding. -/
theorem second_cancellation_check_counterexample :
    (handle_search ⟨⟨78, 1, 1, 0, 42, 4⟩, [114, 117, 115, 116]⟩ RequestState.new
        (⟨fun _ => Except.ok 0, fun _ => some [91, 93]⟩ : Backend Nat)).reply.isSome = true ∧
    (handle_search ⟨⟨78, 1, 1, 0, 42, 4⟩, [114, 117, 115, 116]⟩ RequestState.new
        (⟨fun _ => Except.ok 0, fun _ => some [91, 93]⟩ : Backend Nat)).checks = [42] ∧
    ¬2 ≤ (handle_search ⟨⟨78, 1, 1, 0, 42, 4⟩, [114, 117, 115, 116]⟩ RequestState.new
        (⟨fun _ => Except.ok 0, fun _ => some [91, 93]⟩ : Backend Nat)).checks.length := by
  decide

/-- C1 (amended): `handle_search` checks cancellation exactly once, at entry,
before the backend call; no second check precedes reply encoding.  The
end-to-end property nevertheless holds because frames are dispatched
sequentially: for every RequestId r, if Cancel(r) is fully processed before
the reply for r would be written — that is, the Cancel frame precedes the
SearchQuery frame for r in the dispatched stream — then the SearchQuery's
dispatch emits no reply, regardless of the backend. -/
theorem cancel_processed_before_query_suppresses_reply {R : Type}
    (e : Backend R) (xs ys zs : List OwnedFrame) (cf qf : OwnedFrame)
    (s : RequestState) (r : Nat)
    (hcm : MessageType.tryFrom cf.header.msg_type = some MessageType.Cancel)
    (hcr : cf.header.request_id = r)
    (hqm : MessageType.tryFrom qf.header.msg_type = some MessageType.SearchQuery)
    (hqr : qf.header.request_id = r) :
    (processFrames (xs ++ cf :: (ys ++ qf :: zs)) s e).fst[xs.length + 1 + ys.length]? =
      some none := by
  rw [processFrames_append, processFrames_cons, dispatchFrame_cancel_eq cf _ e hcm, hcr]
  dsimp only
  rw [processFrames_append, processFrames_cons, dispatchFrame_query_eq qf _ e hqm]
  have hmem : qf.header.request_id ∈
      (processFrames ys (((processFrames xs s e).snd).cancel r) e).snd.cancelled := by
    rw [hqr]
    exact processFrames_mono ys _ e (Finset.mem_insert_self r _)
  rw [handle_search_cancelled qf _ e hmem]
  dsimp only
  have h1 : (processFrames xs s e).fst.length = xs.length := processFrames_length xs s e
  rw [List.getElem?_append_right (by rw [h1]; omega)]
  rw [h1]
  have h2 : xs.length + 1 + ys.length - xs.length = ys.length + 1 := by omega
  rw [h2, List.getElem?_cons_succ]
  have h3 : (processFrames ys (((processFrames xs s e).snd).cancel r) e).fst.length =
      ys.length := processFrames_length _ _ _
  rw [List.getElem?_append_right (le_of_eq h3), h3, Nat.sub_self]
  simp

/-- C1 witness: Cancel(7) dispatched immediately before SearchQuery(7) with
no surrounding frames — the query's output slot holds no reply. -/
theorem cancel_processed_before_query_suppresses_reply_witness :
    (MessageType.tryFrom 3 = some MessageType.Cancel ∧
      MessageType.tryFrom 1 = some MessageType.SearchQuery) ∧
    (processFrames ([] ++ (⟨⟨78, 1, 3, 0, 7, 0⟩, []⟩ : OwnedFrame) ::
        ([] ++ (⟨⟨78, 1, 1, 0, 7, 4⟩, [114, 117, 115, 116]⟩ : OwnedFrame) :: []))
        RequestState.new
        (⟨fun _ => Except.ok 0, fun _ => some [91, 93]⟩ : Backend Nat)).fst[
          ([] : List OwnedFrame).length + 1 + ([] : List OwnedFrame).length]? =
      some none := by
  refine ⟨⟨by decide, by decide⟩, ?_⟩
  exact cancel_processed_before_query_suppresses_reply _ [] [] [] _ _ _ 7
    (by decide) rfl (by decide) rfl

theorem run_cons_ok {R : Type} (write : OwnedFrame → Except Nat Unit)
    (frames : List OwnedFrame) (rest : List ReadResult) (s : RequestState)
    (e : Backend R) :
    run write (Except.ok frames :: rest) s e =
      match writeBatch write frames s e with
      | (Except.error er, written, _) => (some (Except.error er), written)
      | (Except.ok _, written, s') =>
        ((run write rest s' e).fst, written ++ (run write rest s' e).snd) := rfl

/-- C2 counterexample: when the frame reader reports error 7 on the first
read, the connection loop stops pulling frames but `run` returns success
(`Ok(())` after `warn` + `break` in the source) — not the reader's error as
the claim states. -/
theorem run_swallows_reader_error_counterexample :
    (run (fun _ => Except.ok ()) [Except.error 7] RequestState.new
      (⟨fun _ => Except.ok 0, fun _ => some [91, 93]⟩ : Backend Nat)).fst =
      some (Except.ok ()) ∧
    (run (fun _ => Except.ok ()) [Except.error 7] RequestState.new
      (⟨fun _ => Except.ok 0, fun _ => some [91, 93]⟩ : Backend Nat)).fst ≠
      some (Except.error 7) := by
  refine ⟨rfl, fun h => ?_⟩
  exact Except.noConfusion (Option.some.inj h)

/-- C2 (amended): on a reader error the loop stops pulling frames, but the
error is logged and swallowed — `run` returns success, never the reader
error.  With a write oracle that never fails, the loop returns precisely
when some read of the script errs, and its return value is then success;
errors can escape only from the initial connect (before the loop) or from a
failed reply write. -/
theorem reader_error_terminates_with_success {R : Type}
    (write : OwnedFrame → Except Nat Unit) (e : Backend R)
    (hw : ∀ fr, write fr = Except.ok ())
    (script : List ReadResult) (s : RequestState) :
    ((run write script s e).fst = some (Except.ok ()) ↔
      ∃ (k : Nat) (er : Nat), script[k]? = some (Except.error er)) ∧
    ∀ er, (run write script s e).fst ≠ some (Except.error er) := by
  induction script generalizing s with
  | nil =>
    refine ⟨⟨fun h => Option.noConfusion h, ?_⟩, fun er h => Option.noConfusion h⟩
    rintro ⟨k, er, hk⟩
    simp at hk
  | cons hd rest ih =>
    cases hd with
    | error er0 =>
      refine ⟨⟨fun _ => ⟨0, er0, by simp⟩, fun _ => rfl⟩, fun er h => ?_⟩
      exact Except.noConfusion (Option.some.inj h)
    | ok frames =>
      have hwb : (writeBatch write frames s e).fst = Except.ok () :=
        writeBatch_ok write hw frames s e
      rcases hx : writeBatch write frames s e with ⟨wr, written, s'⟩
      rw [hx] at hwb
      dsimp at hwb
      subst hwb
      rw [run_cons_ok, hx]
      dsimp only
      have hshift : (∃ (k : Nat) (er : Nat),
          (Except.ok frames :: rest : List ReadResult)[k]? = some (Except.error er)) ↔
          ∃ (k : Nat) (er : Nat), rest[k]? = some (Except.error er) := by
        constructor
        · rintro ⟨k, er, hk⟩
          cases k with
          | zero =>
            rw [List.getElem?_cons_zero] at hk
            exact Except.noConfusion (Option.some.inj hk)
          | succ k => exact ⟨k, er, by simpa using hk⟩
        · rintro ⟨k, er, hk⟩
          exact ⟨k + 1, er, by simpa using hk⟩
      exact ⟨(ih s').1.trans hshift.symm, (ih s').2⟩

/-- C2 witness: the amended theorem applied at a concrete one-error script
with an always-succeeding write oracle. -/
theorem reader_error_terminates_with_success_witness :
    (∀ fr, (fun _ : OwnedFrame => (Except.ok () : Except Nat Unit)) fr =
      Except.ok ()) ∧
    (run (fun _ => Except.ok ()) [Except.error 9] RequestState.new
      (⟨fun _ => Except.ok 0, fun _ => some [91, 93]⟩ : Backend Nat)).fst =
      some (Except.ok ()) := by
  refine ⟨fun _ => rfl, ?_⟩
  exact (reader_error_terminates_with_success _ _ (fun _ => rfl) [Except.error 9]
    RequestState.new).1.mpr ⟨0, 9, rfl⟩

/-- C4: in a session (starting from the empty registry) in which request id r
is never cancelled and appears on no other frame, a SearchQuery frame for r
whose payload is valid UTF-8 and whose backend call, serialization
(non-empty, as JSON serialization always is) and encoding succeed produces
exactly one reply frame for r: message type SearchResult, FINAL flag set,
request id r, and payload equal to the serialized ranked results. -/
theorem unique_query_yields_single_final_reply {R : Type} (e : Backend R)
    (xs zs : List OwnedFrame) (qf : OwnedFrame) (r : Nat) (res : R)
    (sout : List Nat)
    (hxs : ∀ f ∈ xs, f.header.request_id ≠ r)
    (hzs : ∀ f ∈ zs, f.header.request_id ≠ r)
    (hqm : MessageType.tryFrom qf.header.msg_type = some MessageType.SearchQuery)
    (hqr : qf.header.request_id = r)
    (hu : validUtf8 qf.payload = true)
    (hsr : e.search qf.payload = Except.ok res)
    (hsz : e.serialize res = some sout)
    (hne : sout ≠ [])
    (hlen : sout.length < 4294967296) :
    ((processFrames (xs ++ qf :: zs) RequestState.new e).fst.filterMap id).filter
        (fun fr => fr.header.request_id == r) =
      [⟨⟨MAGIC, VERSION, MessageType.SearchResult.toByte, FrameFlags.FINAL, r,
        sout.length⟩, sout⟩] ∧ sout ≠ [] := by
  subst hqr
  refine ⟨?_, hne⟩
  have hnotmem : qf.header.request_id ∉
      (processFrames xs RequestState.new e).snd.cancelled := by
    intro hmem
    have hb := processFrames_cancelled_bound xs RequestState.new e hmem
    rcases Finset.mem_union.mp hb with h | h
    · simp [RequestState.new] at h
    · rcases List.mem_map.mp (List.mem_toFinset.mp h) with ⟨f, hf, hfr⟩
      exact hxs f hf hfr
  have hq := handle_search_success qf (processFrames xs RequestState.new e).snd e
    res sout hnotmem hu hsr hsz hlen
  rw [processFrames_append, processFrames_cons, dispatchFrame_query_eq qf _ e hqm, hq]
  dsimp only
  rw [List.filterMap_append, List.filter_append,
    processFrames_filter_ne e xs RequestState.new _ hxs]
  simp only [List.filterMap_cons, id_eq, List.filter_cons, beq_self_eq_true,
    if_true, List.nil_append]
  rw [processFrames_filter_ne e zs _ _ hzs]

/-- C4 witness: the scenario from the spec — SearchQuery(42, "rust"), id 42
never cancelled and unique in the session, backend succeeding with
serialized results [91, 93] — yields exactly the one FINAL SearchResult
reply for id 42. -/
theorem unique_query_yields_single_final_reply_witness :
    (MessageType.tryFrom 1 = some MessageType.SearchQuery ∧
      validUtf8 [114, 117, 115, 116] = true ∧
      ([91, 93] : List Nat) ≠ [] ∧ ([91, 93] : List Nat).length < 4294967296) ∧
    ((processFrames ([] ++ (⟨⟨78, 1, 1, 0, 42, 4⟩, [114, 117, 115, 116]⟩ : OwnedFrame) :: [])
        RequestState.new
        (⟨fun _ => Except.ok 0, fun _ => some [91, 93]⟩ : Backend Nat)).fst.filterMap
        id).filter (fun fr => fr.header.request_id == 42) =
      [⟨⟨MAGIC, VERSION, MessageType.SearchResult.toByte, FrameFlags.FINAL, 42, 2⟩,
        [91, 93]⟩] ∧ ([91, 93] : List Nat) ≠ [] := by
  refine ⟨⟨by decide, by decide, by decide, by decide⟩, ?_⟩
  exact unique_query_yields_single_final_reply
    (⟨fun _ => Except.ok 0, fun _ => some [91, 93]⟩ : Backend Nat) [] []
    ⟨⟨78, 1, 1, 0, 42, 4⟩, [114, 117, 115, 116]⟩ 42 0 [91, 93]
    (by simp) (by simp) (by decide) rfl (by decide) rfl rfl (by decide) (by decide)
